import Mathlib

/-!
Verification of the SSD1351 OLED driver (`src/gaugette/ssd1351.py`).

The driver is shallowly embedded: the in-memory framebuffer (`Bitmap`) becomes a
record with a flat `List Int` backing store, coordinates are `Int` (Python ints
may be negative), bus-affecting operations return the list of events (GPIO pin
writes and SPI byte writes) they would issue, and the fatal configuration error
of `begin()` is an `Option String`.  Integer division in the Python 2 source
(`y / 8`, `BITS_PER_PIXEL / 8`, `>> 3`) is floor division and is modelled with
`Int.fdiv` / `Nat` division.
-/

/-- The two GPIO pins driven by the driver: the data/command select pin (`dc_pin`)
and the reset pin (`reset_pin`). -/
inductive Pin
  | dc
  | reset
deriving DecidableEq

/-- An observable bus event: a GPIO level change on one of the pins, or an SPI
`writebytes` transfer. -/
inductive Ev
  | gpio (p : Pin) (high : Bool)
  | spi (bytes : List Int)
deriving DecidableEq

/-- Class constant `SSD1351.Bitmap.BITS_PER_PIXEL` (only the value 16 functions). -/
def BITS_PER_PIXEL : Nat := 16

/-- `SSD1351.Bitmap`: the column-major in-memory framebuffer.  `data` is the flat
mutable byte store. -/
structure Bitmap where
  rows : Nat
  cols : Nat
  bytes_per_col : Nat
  data : List Int
deriving DecidableEq

/-- `Bitmap.__init__(cols, rows)`: `bytes_per_col = rows * (BITS_PER_PIXEL / 8)` and
`data = [0] * (cols * bytes_per_col)`. -/
def Bitmap.init (cols rows : Nat) : Bitmap :=
  { rows := rows
    cols := cols
    bytes_per_col := rows * (BITS_PER_PIXEL / 8)
    data := List.replicate (cols * (rows * (BITS_PER_PIXEL / 8))) 0 }

/-- The byte offset used by `Bitmap.draw_pixel`:
`mem_col = x`, `mem_row = y / 8` (floor division), `offset = mem_row + rows * mem_col`. -/
def Bitmap.pixelOffset (b : Bitmap) (x y : Int) : Int :=
  Int.fdiv y 8 + (b.rows : Int) * x

/-- `Bitmap.draw_pixel(x, y, on)`: bounds-checked write.  Out-of-range coordinates
return without touching `data`; otherwise the byte at `pixelOffset` becomes `0xF`
(on) or `0` (off). -/
def Bitmap.draw_pixel (b : Bitmap) (x y : Int) (is_on : Bool) : Bitmap :=
  if x < 0 ∨ x ≥ (b.cols : Int) ∨ y < 0 ∨ y ≥ (b.rows : Int) then b
  else
    { b with data := b.data.set (b.pixelOffset x y).toNat (if is_on then 0xF else 0) }

/-- `Bitmap.clear()`: zero every byte of `data`. -/
def Bitmap.clear (b : Bitmap) : Bitmap :=
  { b with data := b.data.map fun _ => 0 }

/-- Inner loop of `Bitmap.clear_block`: `for y in range(y0, y0+dy): draw_pixel(x, y, 0)`. -/
def clearColLoop (x : Int) : Nat → Int → Bitmap → Bitmap
  | 0, _, b => b
  | n + 1, y, b => clearColLoop x n (y + 1) (b.draw_pixel x y false)

/-- Outer loop of `Bitmap.clear_block`: `for x in range(x0, x0+dx): <column loop>`. -/
def clearBlockLoop (dyn : Nat) (y0 : Int) : Nat → Int → Bitmap → Bitmap
  | 0, _, b => b
  | n + 1, x, b => clearBlockLoop dyn y0 n (x + 1) (clearColLoop x dyn y0 b)

/-- `Bitmap.clear_block(x0, y0, dx, dy)`. -/
def Bitmap.clear_block (b : Bitmap) (x0 y0 dx dy : Int) : Bitmap :=
  clearBlockLoop dy.toNat y0 dx.toNat x0 b

/-! ### Helper lemmas about `List.set` -/

/-- Setting an entry of an all-zero list to `0` is the identity. -/
theorem list_set_zero_id (l : List Int) (n : Nat) (h : ∀ v ∈ l, v = 0) :
    l.set n 0 = l := by
  induction l generalizing n with
  | nil => rfl
  | cons a t ih =>
    cases n with
    | zero =>
      have : a = 0 := h a (by simp)
      simp [this]
    | succ m =>
      have := ih m (fun v hv => h v (by simp [hv]))
      simp [this]

/-- Reading back the entry just written by `List.set`. -/
theorem list_get?_set_self (l : List Int) (n : Nat) (v : Int) (h : n < l.length) :
    (l.set n v).get? n = some v := by
  induction l generalizing n with
  | nil => simp at h
  | cons a t ih =>
    cases n with
    | zero => rfl
    | succ m => simpa using ih m (by simpa using h)

/-! ### Claims C4, C7, C9 -/

/-- C4: for every coordinate pair `(x, y)` with `x < 0` or `x ≥ cols` or `y < 0` or
`y ≥ rows`, `draw_pixel(x, y, on)` leaves the whole bitmap (in particular every
byte of its backing store) unchanged, for either value of `on`, and is total. -/
theorem draw_pixel_out_of_range_noop (b : Bitmap) (x y : Int) (is_on : Bool)
    (h : x < 0 ∨ x ≥ (b.cols : Int) ∨ y < 0 ∨ y ≥ (b.rows : Int)) :
    b.draw_pixel x y is_on = b := by
  simp [Bitmap.draw_pixel, h]

/-- Witness for C4 at the concrete input `x = -1, y = 0` on a fresh 4x8 bitmap. -/
theorem draw_pixel_out_of_range_noop_witness :
    ((-1 : Int) < 0 ∨ (-1 : Int) ≥ ((Bitmap.init 4 8).cols : Int) ∨ (0 : Int) < 0 ∨
        (0 : Int) ≥ ((Bitmap.init 4 8).rows : Int)) ∧
      (Bitmap.init 4 8).draw_pixel (-1) 0 true = Bitmap.init 4 8 :=
  ⟨by decide, draw_pixel_out_of_range_noop (Bitmap.init 4 8) (-1) 0 true (by decide)⟩

/-- C7: on an all-zero backing store, for every in-range coordinate,
`draw_pixel(x, y, true)` followed by `draw_pixel(x, y, false)` restores the
bitmap to its original contents. -/
theorem draw_pixel_on_off_restores (b : Bitmap) (x y : Int)
    (hzero : ∀ v ∈ b.data, v = 0)
    (hx0 : 0 ≤ x) (hx : x < (b.cols : Int)) (hy0 : 0 ≤ y) (hy : y < (b.rows : Int)) :
    (b.draw_pixel x y true).draw_pixel x y false = b := by
  have hcond : ¬(x < 0 ∨ x ≥ (b.cols : Int) ∨ y < 0 ∨ y ≥ (b.rows : Int)) := by
    push_neg
    exact ⟨hx0, hx, hy0, hy⟩
  simp only [Bitmap.draw_pixel, hcond, if_false, if_true, ite_false, ite_true]
  simp only [Bitmap.pixelOffset]
  rw [List.set_set, show (if false = true then (15 : Int) else 0) = 0 from rfl,
    list_set_zero_id _ _ hzero]

/-- Witness for C7 at the concrete in-range input `x = 1, y = 2` on a fresh 4x8 bitmap. -/
theorem draw_pixel_on_off_restores_witness :
    (∀ v ∈ (Bitmap.init 4 8).data, v = 0) ∧
      (0 : Int) ≤ 1 ∧ (1 : Int) < ((Bitmap.init 4 8).cols : Int) ∧
      (0 : Int) ≤ 2 ∧ (2 : Int) < ((Bitmap.init 4 8).rows : Int) ∧
      ((Bitmap.init 4 8).draw_pixel 1 2 true).draw_pixel 1 2 false = Bitmap.init 4 8 :=
  ⟨by decide, by decide, by decide, by decide, by decide,
    draw_pixel_on_off_restores (Bitmap.init 4 8) 1 2 (by decide) (by decide) (by decide)
      (by decide) (by decide)⟩

/-- C9: two distinct in-range rows `y1 ≠ y2` in the same 8-row page (`y1/8 = y2/8`)
alias to the same byte offset, so drawing `(x, y1)` on and then `(x, y2)` off
leaves that shared byte zero, i.e. pixel `(x, y1)` reads back as off. -/
theorem draw_pixel_row_aliasing (b : Bitmap) (x y1 y2 : Int)
    (hx0 : 0 ≤ x) (hx : x < (b.cols : Int))
    (hy10 : 0 ≤ y1) (hy1 : y1 < (b.rows : Int))
    (hy20 : 0 ≤ y2) (hy2 : y2 < (b.rows : Int))
    (hne : y1 ≠ y2) (hdiv : Int.fdiv y1 8 = Int.fdiv y2 8)
    (hlen : (b.pixelOffset x y1).toNat < b.data.length) :
    b.pixelOffset x y1 = b.pixelOffset x y2 ∧
      ((b.draw_pixel x y1 true).draw_pixel x y2 false).data.get?
          (b.pixelOffset x y1).toNat = some 0 := by
  have hoff : b.pixelOffset x y1 = b.pixelOffset x y2 := by
    simp [Bitmap.pixelOffset, hdiv]
  refine ⟨hoff, ?_⟩
  have hcond1 : ¬(x < 0 ∨ x ≥ (b.cols : Int) ∨ y1 < 0 ∨ y1 ≥ (b.rows : Int)) := by
    push_neg
    exact ⟨hx0, hx, hy10, hy1⟩
  have hcond2 : ¬(x < 0 ∨ x ≥ (b.cols : Int) ∨ y2 < 0 ∨ y2 ≥ (b.rows : Int)) := by
    push_neg
    exact ⟨hx0, hx, hy20, hy2⟩
  simp only [Bitmap.draw_pixel, Bitmap.pixelOffset, hcond1, hcond2, if_false,
    ite_false, ite_true]
  have hoff' : Int.fdiv y1 8 + (b.rows : Int) * x = Int.fdiv y2 8 + (b.rows : Int) * x := by
    rw [hdiv]
  rw [← hoff']
  rw [List.set_set]
  exact list_get?_set_self _ _ _ (by simpa using hlen)

/-- Witness for C9 at `x = 0, y1 = 0, y2 = 1` on a fresh 4x8 bitmap. -/
theorem draw_pixel_row_aliasing_witness :
    ((0 : Int) ≤ 0 ∧ (0 : Int) < ((Bitmap.init 4 8).cols : Int) ∧
      (0 : Int) ≤ 0 ∧ (0 : Int) < ((Bitmap.init 4 8).rows : Int) ∧
      (0 : Int) ≤ 1 ∧ (1 : Int) < ((Bitmap.init 4 8).rows : Int) ∧
      (0 : Int) ≠ (1 : Int) ∧ Int.fdiv 0 8 = Int.fdiv 1 8 ∧
      ((Bitmap.init 4 8).pixelOffset 0 0).toNat < (Bitmap.init 4 8).data.length) ∧
    ((Bitmap.init 4 8).pixelOffset 0 0 = (Bitmap.init 4 8).pixelOffset 0 1 ∧
      (((Bitmap.init 4 8).draw_pixel 0 0 true).draw_pixel 0 1 false).data.get?
          ((Bitmap.init 4 8).pixelOffset 0 0).toNat = some 0) :=
  ⟨by decide,
    draw_pixel_row_aliasing (Bitmap.init 4 8) 0 0 1 (by decide) (by decide) (by decide)
      (by decide) (by decide) (by decide) (by decide) (by decide) (by decide)⟩

/-! ### Variable-width kerned font (`Bitmap.text_width`, `Bitmap.draw_text`) -/

/-- Modelled from the spec: the variable-width font resource is an external asset
(§3 GlyphResource); only its shape is needed here.  Characters are code points
(`start_char`/`end_char` bound an inclusive range), `descriptors` maps a glyph
position to `(width, bitmapOffset)`, `kerning` is the 2-D per-glyph-pair spacing
table and `bitmaps` the flat row-major glyph bitmap blob. -/
structure Font where
  start_char : Nat
  end_char : Nat
  char_height : Nat
  gap_width : Nat
  space_width : Nat
  descriptors : List (Nat × Nat)
  kerning : List (List Nat)
  bitmaps : List Nat
deriving DecidableEq

/-- One glyph row of `Bitmap.draw_text`:
`for col in range(0, width): if bitmaps[p] & mask: draw_pixel(px, py, 1); mask >>= 1;
if mask == 0: mask = 0x80; p += 1`. -/
def glyphRowLoop (font : Font) (py : Int) : Nat → Int → Nat → Nat → Bitmap → Bitmap
  | 0, _, _, _, b => b
  | n + 1, px, mask, p, b =>
    let b' := if font.bitmaps.getD p 0 &&& mask ≠ 0 then b.draw_pixel px py true else b
    let mask' := mask >>> 1
    if mask' = 0 then glyphRowLoop font py n (px + 1) 0x80 (p + 1) b'
    else glyphRowLoop font py n (px + 1) mask' p b'

/-- The row loop of `Bitmap.draw_text`: each row starts at `mask = 0x80`, `p = offset`,
and `offset` advances by `bytes_per_row = (width + 7) * (BITS_PER_PIXEL / 8)`. -/
def glyphRowsLoop (font : Font) (x : Int) (width : Nat) : Nat → Int → Nat → Bitmap → Bitmap
  | 0, _, _, b => b
  | n + 1, py, offset, b =>
    let b' := glyphRowLoop font py width x 0x80 offset b
    glyphRowsLoop font x width n (py + 1) (offset + (width + 7) * (BITS_PER_PIXEL / 8)) b'

/-- The character loop of `Bitmap.text_width`, with the kerning state
`prev = none` (`prev_char is None`) or `prev = some (prev_char, prev_width)`. -/
def textWidthLoop (font : Font) : List Nat → Int → Option (Nat × Nat) → Int
  | [], x, none => x
  | [], x, some (_, prev_width) => x + prev_width
  | c :: cs, x, prev =>
    if c < font.start_char ∨ font.end_char < c then
      match prev with
      | some (_, prev_width) =>
        textWidthLoop font cs (x + font.space_width + prev_width + font.gap_width) none
      | none => textWidthLoop font cs x none
    else
      let pos := c - font.start_char
      let wo := font.descriptors.getD pos (0, 0)
      match prev with
      | some (prev_char, _) =>
        textWidthLoop font cs
          (x + (font.kerning.getD prev_char []).getD pos 0 + font.gap_width)
          (some (pos, wo.1))
      | none => textWidthLoop font cs x (some (pos, wo.1))

/-- `Bitmap.text_width(string, font)` (the `self` argument is unused in the source). -/
def Bitmap.text_width (_b : Bitmap) (string : List Nat) (font : Font) : Int :=
  textWidthLoop font string 0 none

/-- The character loop of `Bitmap.draw_text`: identical advance arithmetic to
`textWidthLoop`, plus the glyph bitmap rendering of each in-range character. -/
def drawTextLoop (font : Font) (y : Int) :
    List Nat → Bitmap → Int → Option (Nat × Nat) → Bitmap × Int
  | [], b, x, none => (b, x)
  | [], b, x, some (_, prev_width) => (b, x + prev_width)
  | c :: cs, b, x, prev =>
    if c < font.start_char ∨ font.end_char < c then
      match prev with
      | some (_, prev_width) =>
        drawTextLoop font y cs b (x + font.space_width + prev_width + font.gap_width) none
      | none => drawTextLoop font y cs b x none
    else
      let pos := c - font.start_char
      let wo := font.descriptors.getD pos (0, 0)
      let x' := match prev with
        | some (prev_char, _) =>
          x + (font.kerning.getD prev_char []).getD pos 0 + font.gap_width
        | none => x
      let b' := glyphRowsLoop font x' wo.1 font.char_height y wo.2 b
      drawTextLoop font y cs b' x' (some (pos, wo.1))

/-- `Bitmap.draw_text(x, y, string, font)`: returns the mutated bitmap and the
final cursor position. -/
def Bitmap.draw_text (b : Bitmap) (x y : Int) (string : List Nat) (font : Font) :
    Bitmap × Int :=
  drawTextLoop font y string b x none

/-! ### Claims C2, C6 -/

/-- The horizontal advance computed by the drawing loop agrees with the measuring
loop from every start state. -/
theorem drawTextLoop_snd (font : Font) (y : Int) (cs : List Nat) :
    ∀ (b : Bitmap) (x : Int) (st : Option (Nat × Nat)),
      (drawTextLoop font y cs b x st).2 = textWidthLoop font cs x st := by
  induction cs with
  | nil => intro b x st; cases st with
    | none => rfl
    | some pw => rfl
  | cons c cs ih =>
    intro b x st
    by_cases h : c < font.start_char ∨ font.end_char < c
    · cases st with
      | none =>
        simp only [drawTextLoop, textWidthLoop, if_pos h]
        exact ih _ _ _
      | some pw =>
        obtain ⟨p, w⟩ := pw
        simp only [drawTextLoop, textWidthLoop, if_pos h]
        exact ih _ _ _
    · cases st with
      | none =>
        simp only [drawTextLoop, textWidthLoop, if_neg h]
        exact ih _ _ _
      | some pw =>
        obtain ⟨p, w⟩ := pw
        simp only [drawTextLoop, textWidthLoop, if_neg h]
        exact ih _ _ _

/-- C2: for every string and every variable-width font, `text_width(s, font)` equals
the final cursor position returned by `draw_text(0, 0, s, font)`: the measuring and
drawing loops compute identical horizontal advances. -/
theorem text_width_eq_draw_text_cursor (b : Bitmap) (s : List Nat) (font : Font) :
    b.text_width s font = (b.draw_text 0 0 s font).2 :=
  (drawTextLoop_snd font 0 s b 0 none).symm

/-- After the first out-of-range character has reset the kerning state, the rest of
an out-of-range run leaves the measured advance unchanged. -/
theorem textWidthLoop_unsupported_run (font : Font) (rest : List Nat) :
    ∀ (run : List Nat) (x : Int),
      (∀ a ∈ run, a < font.start_char ∨ font.end_char < a) →
      textWidthLoop font (run ++ rest) x none = textWidthLoop font rest x none := by
  intro run
  induction run with
  | nil => intro x _; rfl
  | cons r rs ih =>
    intro x h
    have hr := h r (by simp)
    simp only [List.cons_append, textWidthLoop, if_pos hr]
    exact ih x fun a ha => h a (by simp [ha])

/-- After the first out-of-range character has reset the kerning state, the rest of
an out-of-range run draws nothing and leaves the cursor unchanged. -/
theorem drawTextLoop_unsupported_run (font : Font) (y : Int) (rest : List Nat) :
    ∀ (run : List Nat) (b : Bitmap) (x : Int),
      (∀ a ∈ run, a < font.start_char ∨ font.end_char < a) →
      drawTextLoop font y (run ++ rest) b x none = drawTextLoop font y rest b x none := by
  intro run
  induction run with
  | nil => intro b x _; rfl
  | cons r rs ih =>
    intro b x h
    have hr := h r (by simp)
    simp only [List.cons_append, drawTextLoop, if_pos hr]
    exact ih b x fun a ha => h a (by simp [ha])

/-- C6: in both `text_width` and `draw_text`, a maximal run of characters outside
`[start_char, end_char]` adds `space_width + previous-glyph-width + gap_width`
exactly once, at the first character of the run, and only when a previous in-range
glyph exists (a run seen with no previous glyph adds nothing); the kerning state is
reset, so the next in-range glyph is processed with no kerning adjustment. -/
theorem unsupported_run_flush (font : Font) (y : Int) (b : Bitmap)
    (run rest : List Nat) (x : Int) (p w : Nat) (c : Nat) (cs : List Nat)
    (hrun : ∀ a ∈ run, a < font.start_char ∨ font.end_char < a)
    (hne : run ≠ [])
    (hc1 : font.start_char ≤ c) (hc2 : c ≤ font.end_char) :
    (textWidthLoop font (run ++ rest) x (some (p, w)) =
        textWidthLoop font rest (x + font.space_width + w + font.gap_width) none) ∧
      (textWidthLoop font (run ++ rest) x none = textWidthLoop font rest x none) ∧
      (drawTextLoop font y (run ++ rest) b x (some (p, w)) =
        drawTextLoop font y rest b (x + font.space_width + w + font.gap_width) none) ∧
      (drawTextLoop font y (run ++ rest) b x none = drawTextLoop font y rest b x none) ∧
      (textWidthLoop font (c :: cs) x none =
        textWidthLoop font cs x
          (some (c - font.start_char,
            (font.descriptors.getD (c - font.start_char) (0, 0)).1))) ∧
      (drawTextLoop font y (c :: cs) b x none =
        drawTextLoop font y cs
          (glyphRowsLoop font x (font.descriptors.getD (c - font.start_char) (0, 0)).1
            font.char_height y (font.descriptors.getD (c - font.start_char) (0, 0)).2 b)
          x
          (some (c - font.start_char,
            (font.descriptors.getD (c - font.start_char) (0, 0)).1))) := by
  obtain ⟨r, rs, rfl⟩ : ∃ r rs, run = r :: rs := by
    cases run with
    | nil => exact absurd rfl hne
    | cons r rs => exact ⟨r, rs, rfl⟩
  have hr := hrun r (by simp)
  have hrs : ∀ a ∈ rs, a < font.start_char ∨ font.end_char < a :=
    fun a ha => hrun a (by simp [ha])
  have hcin : ¬(c < font.start_char ∨ font.end_char < c) := by omega
  refine ⟨?_, ?_, ?_, ?_, ?_, ?_⟩
  · simp only [List.cons_append, textWidthLoop, if_pos hr]
    exact textWidthLoop_unsupported_run font rest rs _ hrs
  · simp only [List.cons_append, textWidthLoop, if_pos hr]
    exact textWidthLoop_unsupported_run font rest rs _ hrs
  · simp only [List.cons_append, drawTextLoop, if_pos hr]
    exact drawTextLoop_unsupported_run font y rest rs b _ hrs
  · simp only [List.cons_append, drawTextLoop, if_pos hr]
    exact drawTextLoop_unsupported_run font y rest rs b _ hrs
  · simp only [textWidthLoop, if_neg hcin]
  · simp only [drawTextLoop, if_neg hcin]

/-- A small concrete kerned font used by witnesses: glyph range `['A', 'B']`. -/
def sampleFont : Font :=
  { start_char := 65
    end_char := 66
    char_height := 0
    gap_width := 1
    space_width := 2
    descriptors := [(3, 0), (4, 0)]
    kerning := [[1, 2], [0, 1]]
    bitmaps := [] }

/-- Witness for C6: the run `[' ']` (code 32) before `"A"` with a pending glyph of
width 3 flushes exactly `space_width + 3 + gap_width`. -/
theorem unsupported_run_flush_witness :
    (∀ a ∈ [32], a < sampleFont.start_char ∨ sampleFont.end_char < a) ∧
      ([32] : List Nat) ≠ [] ∧
      sampleFont.start_char ≤ 65 ∧ (65 : Nat) ≤ sampleFont.end_char ∧
      ((textWidthLoop sampleFont ([32] ++ [65]) 0 (some (0, 3)) =
          textWidthLoop sampleFont [65]
            (0 + sampleFont.space_width + 3 + sampleFont.gap_width) none) ∧
        (textWidthLoop sampleFont ([32] ++ [65]) 0 none =
          textWidthLoop sampleFont [65] 0 none) ∧
        (drawTextLoop sampleFont 0 ([32] ++ [65]) (Bitmap.init 2 8) 0 (some (0, 3)) =
          drawTextLoop sampleFont 0 [65] (Bitmap.init 2 8)
            (0 + sampleFont.space_width + 3 + sampleFont.gap_width) none) ∧
        (drawTextLoop sampleFont 0 ([32] ++ [65]) (Bitmap.init 2 8) 0 none =
          drawTextLoop sampleFont 0 [65] (Bitmap.init 2 8) 0 none) ∧
        (textWidthLoop sampleFont (65 :: []) 0 none =
          textWidthLoop sampleFont [] 0
            (some (65 - sampleFont.start_char,
              (sampleFont.descriptors.getD (65 - sampleFont.start_char) (0, 0)).1))) ∧
        (drawTextLoop sampleFont 0 (65 :: []) (Bitmap.init 2 8) 0 none =
          drawTextLoop sampleFont 0 []
            (glyphRowsLoop sampleFont 0
              (sampleFont.descriptors.getD (65 - sampleFont.start_char) (0, 0)).1
              sampleFont.char_height 0
              (sampleFont.descriptors.getD (65 - sampleFont.start_char) (0, 0)).2
              (Bitmap.init 2 8))
            0
            (some (65 - sampleFont.start_char,
              (sampleFont.descriptors.getD (65 - sampleFont.start_char) (0, 0)).1)))) :=
  ⟨by decide, by decide, by decide, by decide,
    unsupported_run_flush sampleFont 0 (Bitmap.init 2 8) [32] [65] 0 0 3 65 []
      (by decide) (by decide) (by decide) (by decide)⟩

/-! ### Command channel, chunked data transfer, init sequence, blitting -/

/-- SSD1351 command opcodes (class constants of `SSD1351`).  Two names carry a
trailing tick purely for lexical reasons; their values match the source. -/
def CMD_SETCOLUMN : Int := 0x15

/-- `CMD_SETROW`. -/
def CMD_SETROW : Int := 0x75

/-- `CMD_SETREMAP`. -/
def CMD_SETREMAP : Int := 0xA0

/-- `CMD_STARTLINE`. -/
def CMD_STARTLINE : Int := 0xA1

/-- `CMD_DISPLAYOFFSET`. -/
def CMD_DISPLAYOFFSET : Int := 0xA2

/-- `CMD_NORMALDISPLAY`. -/
def CMD_NORMALDISPLAY : Int := 0xA6

/-- `CMD_INVERTDISPLAY`. -/
def CMD_INVERTDISPLAY : Int := 0xA7

/-- `CMD_FUNCTIONSELECT`. -/
def CMD_FUNCTIONSELECT : Int := 0xAB

/-- `CMD_DISPLAYOFF`. -/
def CMD_DISPLAYOFF : Int := 0xAE

/-- `CMD_DISPLAYON`. -/
def CMD_DISPLAYON : Int := 0xAF

/-- `CMD_PRECHARGE`. -/
def CMD_PRECHARGE : Int := 0xB1

/-- `CMD_CLOCKDIV`. -/
def CMD_CLOCKDIV : Int := 0xB3

/-- `CMD_SETVSL`. -/
def CMD_SETVSL : Int := 0xB4

/-- `CMD_SETGPIO` (0xB5). -/
def CMD_SETGPIO' : Int := 0xB5

/-- `CMD_PRECHARGE2`. -/
def CMD_PRECHARGE2 : Int := 0xB6

/-- `CMD_VCOMH`. -/
def CMD_VCOMH : Int := 0xBE

/-- `CMD_CONTRASTABC`. -/
def CMD_CONTRASTABC : Int := 0xC1

/-- `CMD_CONTRASTMASTER`. -/
def CMD_CONTRASTMASTER : Int := 0xC7

/-- `CMD_MUXRATIO` (0xCA). -/
def CMD_MUXRATIO' : Int := 0xCA

/-- `CMD_COMMANDLOCK`. -/
def CMD_COMMANDLOCK : Int := 0xFD

/-- `MEMORY_MODE_VERT`. -/
def MEMORY_MODE_VERT : Int := 0x01

/-- `SWITCH_CAP_VCC` (the default `vcc_state` of `begin`). -/
def SWITCH_CAP_VCC : Int := 0x2

/-- The per-call transfer ceiling of `SSD1351.data`:
`255 if gaugette.platform == 'beaglebone' else 1024`.  `gaugette.platform` is a
process-wide string set by the missing `gaugette/__init__.py`, modelled as a
parameter. -/
def max_xfer (platform : String) : Nat :=
  if platform = "beaglebone" then 255 else 1024

/-- The chunking loop of `SSD1351.data`:
`while remaining > 0: count = remaining if remaining <= max_xfer else max_xfer;
remaining -= count; writebytes(bytes[start:start+count]); start += count`.
The fuel argument (instantiated with `bytes.length`) bounds the iteration count;
each iteration consumes at least one byte whenever `max_xfer ≥ 1`, which the two
source values 255 and 1024 both satisfy. -/
def dataChunks (bytes : List Int) (maxX : Nat) : Nat → Nat → Nat → List (List Int)
  | 0, _, _ => []
  | fuel + 1, start, remaining =>
    if remaining = 0 then []
    else
      let count := if remaining ≤ maxX then remaining else maxX
      ((bytes.drop start).take count) ::
        dataChunks bytes maxX fuel (start + count) (remaining - count)

/-- `SSD1351.command(*bytes)`: one SPI write with the dc line already low. -/
def SSD1351.command (bytes : List Int) : List Ev :=
  [Ev.spi bytes]

/-- `SSD1351.data(bytes)`: raise dc, transmit the chunked payload, lower dc. -/
def SSD1351.data (platform : String) (bytes : List Int) : List Ev :=
  [Ev.gpio Pin.dc true]
    ++ (dataChunks bytes (max_xfer platform) bytes.length 0 bytes.length).map Ev.spi
    ++ [Ev.gpio Pin.dc false]

/-- `SSD1351.reset()`: drive the reset pin low then high (sleeps elided). -/
def SSD1351.reset : List Ev :=
  [Ev.gpio Pin.reset false, Ev.gpio Pin.reset true]

/-- `SSD1351.begin(vcc_state)`: the fixed initialization command stream.  Returns
the events issued up to the point the call returns or raises, together with the
raised error (if any).  The `rows == 128` check sits after the reset pulse and the
first four commands. -/
def SSD1351.begin (rows : Nat) (_vcc_state : Int) : List Ev × Option String :=
  let pre := SSD1351.reset
    ++ SSD1351.command [CMD_COMMANDLOCK, 0x12]
    ++ SSD1351.command [CMD_COMMANDLOCK, 0xB1]
    ++ SSD1351.command [CMD_DISPLAYOFF]
    ++ SSD1351.command [CMD_CLOCKDIV, 0xF1]
  if rows = 128 then
    (pre ++ SSD1351.command [CMD_MUXRATIO', 127]
      ++ SSD1351.command [CMD_SETREMAP, 0x74]
      ++ SSD1351.command [CMD_SETCOLUMN, 0x00, 0x7F]
      ++ SSD1351.command [CMD_SETROW, 0x00, 0x7F]
      ++ SSD1351.command [CMD_STARTLINE, 0x00]
      ++ SSD1351.command [CMD_DISPLAYOFFSET, 0x00]
      ++ SSD1351.command [CMD_SETGPIO', 0x00]
      ++ SSD1351.command [CMD_FUNCTIONSELECT, 0x01]
      ++ SSD1351.command [CMD_PRECHARGE, 0x32]
      ++ SSD1351.command [CMD_VCOMH, 0x05]
      ++ SSD1351.command [CMD_NORMALDISPLAY]
      ++ SSD1351.command [CMD_CONTRASTABC, 0xC8, 0x80, 0xC8]
      ++ SSD1351.command [CMD_CONTRASTMASTER, 0x0F]
      ++ SSD1351.command [CMD_SETVSL, 0xA0, 0xB5, 0x55]
      ++ SSD1351.command [CMD_PRECHARGE2, 0x01]
      ++ SSD1351.command [CMD_DISPLAYON], none)
  else
    (pre, some "Unimplemented: Display sizes other than 128x128 are unsupported")

/-- `SSD1351.display_block(bitmap, row, col, col_count, col_offset)`: compute the
page/column window, emit set-remap (vertical mode), set-row, set-column, then send
the linear slice `bitmap.data[start : start+length]`.  The bitmap is only read. -/
def SSD1351.display_block (platform : String) (bitmap : Bitmap)
    (row col col_count col_offset : Nat) : Bitmap × List Ev :=
  let page_count := bitmap.rows >>> 3
  let page_start := row >>> 3
  let page_end := page_start + page_count - 1
  let col_start := col
  let col_end := col + col_count - 1
  let start := col_offset * page_count
  let length := col_count * page_count
  (bitmap,
    SSD1351.command [CMD_SETREMAP, MEMORY_MODE_VERT]
      ++ SSD1351.command [CMD_SETROW, (page_start : Int), (page_end : Int)]
      ++ SSD1351.command [CMD_SETCOLUMN, (col_start : Int), (col_end : Int)]
      ++ SSD1351.data platform ((bitmap.data.drop start).take length))

/-- `SSD1351.display()`: blit the driver's own bitmap (`cols` and `col_offset` are
driver configuration). -/
def SSD1351.display (platform : String) (cols col_offset : Nat) (b : Bitmap) :
    Bitmap × List Ev :=
  SSD1351.display_block platform b 0 0 cols col_offset

/-- `SSD1351.display_cols(start_col, count)`. -/
def SSD1351.display_cols (platform : String) (col_offset : Nat) (b : Bitmap)
    (start_col count : Nat) : Bitmap × List Ev :=
  SSD1351.display_block platform b 0 start_col count col_offset

/-- `SSD1351.draw_pixel(x, y, on)`: delegate to the in-memory bitmap; no bus event. -/
def SSD1351.draw_pixel (b : Bitmap) (x y : Int) (is_on : Bool) : Bitmap × List Ev :=
  (b.draw_pixel x y is_on, [])

/-- `SSD1351.clear_display()`: delegate to `Bitmap.clear`; no bus event. -/
def SSD1351.clear_display (b : Bitmap) : Bitmap × List Ev :=
  (b.clear, [])

/-- `SSD1351.clear_block(x0, y0, dx, dy)`: delegate to the bitmap; no bus event. -/
def SSD1351.clear_block (b : Bitmap) (x0 y0 dx dy : Int) : Bitmap × List Ev :=
  (b.clear_block x0 y0 dx dy, [])

/-- `SSD1351.draw_text3(x, y, string, font)`: delegate to `Bitmap.draw_text`. -/
def SSD1351.draw_text3 (b : Bitmap) (x y : Int) (string : List Nat) (font : Font) :
    (Bitmap × Int) × List Ev :=
  (b.draw_text x y string font, [])

/-- Modelled from the spec: the fixed 5x8 font resource (`gaugette.font5x8`, not in
the sources) is a flat byte table plus the glyph cell dimensions. -/
structure FixedFont where
  bytes : List Nat
  rows : Nat
  cols : Nat
deriving DecidableEq

/-- Inner row loop of `SSD1351.draw_text`:
`for row in range(0, 8): draw_pixel(x, y+row, mask & 0x1); mask >>= 1`. -/
def fixedColRows (x : Int) : Nat → Int → Nat → Bitmap → Bitmap
  | 0, _, _, b => b
  | n + 1, y, mask, b =>
    fixedColRows x n (y + 1) (mask >>> 1) (b.draw_pixel x y (mask &&& 1 != 0))

/-- Column loop of `SSD1351.draw_text`: one font byte per glyph column, then `x += 1`. -/
def fixedCols (font : FixedFont) (y : Int) : Nat → Int → Nat → Bitmap → Bitmap × Int
  | 0, x, _, b => (b, x)
  | n + 1, x, p, b =>
    let mask := font.bytes.getD p 0
    fixedCols font y n (x + 1) (p + 1) (fixedColRows x 8 y mask b)

/-- Character loop of `SSD1351.draw_text`: `p = ord(c) * font_cols`. -/
def fixedChars (font : FixedFont) (y : Int) : List Nat → Int → Bitmap → Bitmap
  | [], _, b => b
  | c :: cs, x, b =>
    let r := fixedCols font y font.cols x (c * font.cols) b
    fixedChars font y cs r.2 r.1

/-- `SSD1351.draw_text(x, y, string)`: fixed 5x8 font rendering; no bus event. -/
def SSD1351.draw_text (font : FixedFont) (b : Bitmap) (x y : Int) (string : List Nat) :
    Bitmap × List Ev :=
  (fixedChars font y string x b, [])

/-- Innermost scale loop of `SSD1351.draw_text2`:
`px = x; for sx in range(0, size): draw_pixel(px, py, mask & 0x1); px += 1`. -/
def dt2SxLoop (py : Int) (is_on : Bool) : Nat → Int → Bitmap → Bitmap
  | 0, _, b => b
  | n + 1, px, b => dt2SxLoop py is_on n (px + 1) (b.draw_pixel px py is_on)

/-- Vertical scale loop of `SSD1351.draw_text2`: repeats the sx loop `size` times,
advancing `py` each time; returns the final `py`. -/
def dt2SyLoop (x : Int) (size : Nat) (is_on : Bool) : Nat → Int → Bitmap → Bitmap × Int
  | 0, py, b => (b, py)
  | n + 1, py, b => dt2SyLoop x size is_on n (py + 1) (dt2SxLoop py is_on size x b)

/-- Row loop of `SSD1351.draw_text2`: 8 packed rows per font byte, `mask >>= 1`
after each row. -/
def dt2RowLoop (x : Int) (size : Nat) : Nat → Int → Nat → Bitmap → Bitmap
  | 0, _, _, b => b
  | n + 1, py, mask, b =>
    let r := dt2SyLoop x size (mask &&& 1 != 0) size py b
    dt2RowLoop x size n r.2 (mask >>> 1) r.1

/-- Column loop of `SSD1351.draw_text2`: `x += size` after each glyph column. -/
def dt2ColLoop (font : FixedFont) (y : Int) (size : Nat) :
    Nat → Int → Nat → Bitmap → Bitmap × Int
  | 0, x, _, b => (b, x)
  | n + 1, x, p, b =>
    let mask := font.bytes.getD p 0
    dt2ColLoop font y size n (x + size) (p + 1) (dt2RowLoop x size 8 y mask b)

/-- Character loop of `SSD1351.draw_text2`: `x += space` after each character. -/
def dt2CharLoop (font : FixedFont) (y : Int) (size space : Nat) :
    List Nat → Int → Bitmap → Bitmap
  | [], _, b => b
  | c :: cs, x, b =>
    let r := dt2ColLoop font y size font.cols x (c * font.cols) b
    dt2CharLoop font y size space cs (r.2 + space) r.1

/-- `SSD1351.draw_text2(x, y, string, size, space)`: scaled fixed-font rendering;
no bus event. -/
def SSD1351.draw_text2 (font : FixedFont) (b : Bitmap) (x y : Int) (string : List Nat)
    (size space : Nat) : Bitmap × List Ev :=
  (dt2CharLoop font y size space string x b, [])

/-! ### Claims C3, C5, C1, C8, C10 -/

/-- The transfer ceiling is positive on every platform (255 or 1024). -/
theorem max_xfer_pos (platform : String) : 1 ≤ max_xfer platform := by
  unfold max_xfer
  split <;> omega

/-- The chunks produced by the `SSD1351.data` loop concatenate back to the suffix
of the payload they were cut from. -/
theorem dataChunks_join (bytes : List Int) (maxX : Nat) (hmax : 1 ≤ maxX) :
    ∀ (fuel start remaining : Nat), remaining ≤ fuel → start + remaining = bytes.length →
      (dataChunks bytes maxX fuel start remaining).flatten = bytes.drop start := by
  intro fuel
  induction fuel with
  | zero =>
    intro start remaining h1 h2
    have h0 : remaining = 0 := by omega
    subst h0
    simp only [dataChunks, List.flatten_nil]
    exact (List.drop_eq_nil_of_le (by omega)).symm
  | succ fuel ih =>
    intro start remaining h1 h2
    by_cases h0 : remaining = 0
    · subst h0
      simp only [dataChunks, if_pos rfl, List.flatten_nil]
      exact (List.drop_eq_nil_of_le (by omega)).symm
    · simp only [dataChunks, if_neg h0, List.flatten_cons]
      have hcount1 : 1 ≤ if remaining ≤ maxX then remaining else maxX := by
        split <;> omega
      have hcount2 : (if remaining ≤ maxX then remaining else maxX) ≤ remaining := by
        split <;> omega
      rw [ih (start + if remaining ≤ maxX then remaining else maxX)
        (remaining - if remaining ≤ maxX then remaining else maxX) (by omega) (by omega)]
      rw [← List.drop_drop]
      exact List.take_append_drop _ (bytes.drop start)

/-- Every chunk produced by the `SSD1351.data` loop is at most `maxX` bytes. -/
theorem dataChunks_le (bytes : List Int) (maxX : Nat) :
    ∀ (fuel start remaining : Nat), ∀ c ∈ dataChunks bytes maxX fuel start remaining,
      c.length ≤ maxX := by
  intro fuel
  induction fuel with
  | zero => intro start remaining c hc; simp [dataChunks] at hc
  | succ fuel ih =>
    intro start remaining c hc
    by_cases h0 : remaining = 0
    · subst h0
      simp [dataChunks] at hc
    · simp only [dataChunks, if_neg h0, List.mem_cons] at hc
      rcases hc with rfl | hc
      · rw [List.length_take]
        split <;> omega
      · exact ih _ _ c hc

/-- C3: every byte sequence passed to `data()` is transmitted as consecutive chunks
whose concatenation equals the input, each chunk no larger than the configured
maximum transfer size, with the dc line raised to data level before the first chunk
and lowered back to command level only after the last. -/
theorem data_chunking_spec (platform : String) (bytes : List Int) :
    ∃ chunks : List (List Int),
      SSD1351.data platform bytes
          = [Ev.gpio Pin.dc true] ++ chunks.map Ev.spi ++ [Ev.gpio Pin.dc false] ∧
        chunks.flatten = bytes ∧
        ∀ c ∈ chunks, c.length ≤ max_xfer platform := by
  refine ⟨dataChunks bytes (max_xfer platform) bytes.length 0 bytes.length, rfl, ?_, ?_⟩
  · simpa using dataChunks_join bytes (max_xfer platform) (max_xfer_pos platform)
      bytes.length 0 bytes.length le_rfl (by omega)
  · exact dataChunks_le bytes (max_xfer platform) bytes.length 0 bytes.length

/-- C5: on a 128-row bitmap, `display_block(bitmap, 0, 0, 128, 0)` computes
`page_start = 0`, `page_end = 15`, `col_start = 0`, `col_end = 127`, emits set-remap
(vertical mode), set-row(0, 15), set-column(0, 127) in that order, and then sends
the slice `data[0*16 : 0*16 + 128*16]`, of length 2048 when the store is big
enough. -/
theorem display_block_full_128 (platform : String) (b : Bitmap) (h : b.rows = 128) :
    SSD1351.display_block platform b 0 0 128 0
        = (b, SSD1351.command [CMD_SETREMAP, MEMORY_MODE_VERT]
            ++ SSD1351.command [CMD_SETROW, 0, 15]
            ++ SSD1351.command [CMD_SETCOLUMN, 0, 127]
            ++ SSD1351.data platform ((b.data.drop (0 * 16)).take (128 * 16))) ∧
      (128 * 16 ≤ b.data.length → ((b.data.drop (0 * 16)).take (128 * 16)).length = 2048) := by
  obtain ⟨rows, cols, bpc, d⟩ := b
  simp only at h
  subst h
  refine ⟨by simp [SSD1351.display_block], fun hlen => ?_⟩
  simp only [List.length_take, List.length_drop]
  simp only [List.length_drop] at hlen
  omega

/-- Witness for C5 on a concrete 8-column, 128-row bitmap. -/
theorem display_block_full_128_witness :
    (Bitmap.init 8 128).rows = 128 ∧
      (SSD1351.display_block "raspberrypi" (Bitmap.init 8 128) 0 0 128 0
          = (Bitmap.init 8 128, SSD1351.command [CMD_SETREMAP, MEMORY_MODE_VERT]
              ++ SSD1351.command [CMD_SETROW, 0, 15]
              ++ SSD1351.command [CMD_SETCOLUMN, 0, 127]
              ++ SSD1351.data "raspberrypi"
                  (((Bitmap.init 8 128).data.drop (0 * 16)).take (128 * 16))) ∧
        (128 * 16 ≤ (Bitmap.init 8 128).data.length →
          (((Bitmap.init 8 128).data.drop (0 * 16)).take (128 * 16)).length = 2048)) :=
  ⟨rfl, display_block_full_128 "raspberrypi" (Bitmap.init 8 128) rfl⟩

/-- C1 counterexample: with `rows = 64`, `begin()` does raise the
unsupported-configuration error, but the events issued before the error surface are
not empty — a reset pulse and four commands precede it, contradicting the claim
that no reset and no command occur first. -/
theorem begin_unsupported_rows_counterexample :
    (SSD1351.begin 64 SWITCH_CAP_VCC).2.isSome = true ∧
      (SSD1351.begin 64 SWITCH_CAP_VCC).1 ≠ [] := by
  refine ⟨rfl, ?_⟩
  decide

/-- C1 (amended): for every configured `rows ≠ 128`, `begin()` raises the
unsupported-configuration error after the reset pulse and the four initial commands
(command-lock 0x12, command-lock 0xB1, display-off, clock-div) and before the
mux-ratio/remap commands and all later commands; nothing further is issued. -/
theorem begin_unsupported_rows_after_partial_init (rows : Nat) (vcc : Int)
    (h : rows ≠ 128) :
    SSD1351.begin rows vcc
      = (SSD1351.reset ++ SSD1351.command [CMD_COMMANDLOCK, 0x12]
          ++ SSD1351.command [CMD_COMMANDLOCK, 0xB1]
          ++ SSD1351.command [CMD_DISPLAYOFF]
          ++ SSD1351.command [CMD_CLOCKDIV, 0xF1],
        some "Unimplemented: Display sizes other than 128x128 are unsupported") := by
  unfold SSD1351.begin
  rw [if_neg h]

/-- Witness for the amended C1 at `rows = 64`. -/
theorem begin_unsupported_rows_after_partial_init_witness :
    (64 : Nat) ≠ 128 ∧
      SSD1351.begin 64 SWITCH_CAP_VCC
        = (SSD1351.reset ++ SSD1351.command [CMD_COMMANDLOCK, 0x12]
            ++ SSD1351.command [CMD_COMMANDLOCK, 0xB1]
            ++ SSD1351.command [CMD_DISPLAYOFF]
            ++ SSD1351.command [CMD_CLOCKDIV, 0xF1],
          some "Unimplemented: Display sizes other than 128x128 are unsupported") :=
  ⟨by decide, begin_unsupported_rows_after_partial_init 64 SWITCH_CAP_VCC (by decide)⟩

/-- C8: the drawing operations `draw_pixel`, `draw_text`, `draw_text2`,
`draw_text3`, `clear_block` and `clear_display` emit no bus event whatsoever —
no SPI byte and no pin-level change; only the explicit flush/command operations
produce events. -/
theorem draw_ops_emit_no_bus_events :
    (∀ (b : Bitmap) (x y : Int) (is_on : Bool), (SSD1351.draw_pixel b x y is_on).2 = []) ∧
      (∀ (font : FixedFont) (b : Bitmap) (x y : Int) (s : List Nat),
        (SSD1351.draw_text font b x y s).2 = []) ∧
      (∀ (font : FixedFont) (b : Bitmap) (x y : Int) (s : List Nat) (size sp : Nat),
        (SSD1351.draw_text2 font b x y s size sp).2 = []) ∧
      (∀ (b : Bitmap) (x y : Int) (s : List Nat) (font : Font),
        (SSD1351.draw_text3 b x y s font).2 = []) ∧
      (∀ (b : Bitmap) (x0 y0 dx dy : Int), (SSD1351.clear_block b x0 y0 dx dy).2 = []) ∧
      (∀ b : Bitmap, (SSD1351.clear_display b).2 = []) :=
  ⟨fun _ _ _ _ => rfl, fun _ _ _ _ _ => rfl, fun _ _ _ _ _ _ _ => rfl,
    fun _ _ _ _ _ => rfl, fun _ _ _ _ _ => rfl, fun _ => rfl⟩

/-- C10: the flush operations `display`, `display_cols` and `display_block` never
modify the bitmap's backing store, so flushing twice produces identical output. -/
theorem flush_preserves_framebuffer :
    (∀ (platform : String) (b : Bitmap) (row col cc co : Nat),
        (SSD1351.display_block platform b row col cc co).1 = b) ∧
      (∀ (platform : String) (cols co : Nat) (b : Bitmap),
        (SSD1351.display platform cols co b).1 = b) ∧
      (∀ (platform : String) (co : Nat) (b : Bitmap) (sc cnt : Nat),
        (SSD1351.display_cols platform co b sc cnt).1 = b) ∧
      (∀ (platform : String) (b : Bitmap) (row col cc co : Nat),
        SSD1351.display_block platform
            ((SSD1351.display_block platform b row col cc co).1) row col cc co
          = SSD1351.display_block platform b row col cc co) :=
  ⟨fun _ _ _ _ _ _ => rfl, fun _ _ _ _ => rfl, fun _ _ _ _ _ => rfl,
    fun _ _ _ _ _ _ => rfl⟩
